import Mathlib

/-!
Verification development for the payment-authorization and credit-management
engine of the `code-health` repository.

The embedding covers:
* `payment_processor.py` — `PaymentProcessor.process_payment` and its private
  handlers, modelled as pure functions that return the dispatch outcome together
  with the list of payment rows inserted into the `payments` table and the list
  of notifications triggered.  Database inserts are modelled as always
  succeeding; the SQL layer and its failure modes are outside the embedding.
* `customer_servlet.py` — `CustomerServlet` over its in-memory `customers`
  dictionary, with the invoice table of `invoice_dao.py` passed in as a value
  (the DAO only reads it for the operations modelled here).

Python float amounts are modelled by `PFloat`, a tagged value that is either a
rational number, positive or negative infinity, or NaN, with the IEEE-754
comparison semantics Python uses (every comparison against NaN is false).
-/

namespace CodeHealth

/-- Python float, shallowly embedded: a finite rational, one of the two
infinities, or NaN. -/
inductive PFloat where
  | fin (q : ℚ)
  | inf
  | ninf
  | nan
deriving DecidableEq

/-- The strict `<` comparison on Python floats: any comparison involving NaN is
false, negative infinity is below every non-NaN value, positive infinity above
every non-NaN value. -/
def PFloat.lt : PFloat → PFloat → Bool
  | .nan, _ => false
  | _, .nan => false
  | .fin a, .fin b => decide (a < b)
  | .fin _, .inf => true
  | .fin _, .ninf => false
  | .inf, _ => false
  | .ninf, .ninf => false
  | .ninf, _ => true

/-- Models the Python `s.startswith(p)` test for a one-character prefix `p`:
true exactly when the string is nonempty and its first character is `c`.
(`String.startsWith` itself does not reduce in the kernel, so the first
character is read off the underlying character list.) -/
def startsWithChar (s : String) (c : Char) : Bool :=
  match s.data with
  | [] => false
  | d :: _ => d = c

/-- The `metadata` dictionary of `process_payment`, restricted to the keys the
method reads; a `none` field models the key being absent. -/
structure Metadata where
  card_number : Option String := none
  authorization_code : Option String := none
  account_number : Option String := none
  routing_number : Option String := none
  email : Option String := none
deriving DecidableEq

/-- One row of the `payments` table, with the columns the various INSERT
statements of `payment_processor.py` populate; a column a given INSERT does not
mention is `none`. -/
structure PaymentRecord where
  customer_id : String
  amount : PFloat
  card_last4 : Option String := none
  auth_code : Option String := none
  account_last4 : Option String := none
  routing : Option String := none
  paypal_email : Option String := none
  status : String
deriving DecidableEq

/-- A notification triggered by the processor: the confirmation email of
`_send_confirmation_email` or the fraud-team alert of `_notify_fraud_team`. -/
inductive Notification where
  | confirmationEmail (customer_id : String) (amount : PFloat)
  | fraudTeam (customer_id : String) (amount : PFloat)
deriving DecidableEq

/-- The processing path `process_payment` dispatched the request into: one of
the three card tiers, the bank-transfer handler, or the PayPal handler. -/
inductive Path where
  | small
  | medium
  | large
  | bank
  | paypal
deriving DecidableEq

/-- Outcome of one `process_payment` call: the boolean the Python method
returns, the payment rows inserted, the notifications triggered, the path
dispatched into (`none` when the call is rejected before reaching a tier or
handler body), and the message printed on rejection. -/
structure ProcResult where
  ok : Bool
  records : List PaymentRecord := []
  notifs : List Notification := []
  path : Option Path := none
  msg : Option String := none
deriving DecidableEq

/-- `PaymentProcessor._process_small_payment`: inserts one `completed` row with
the last four characters of the card and returns True. -/
def process_small_payment (cid : String) (amount : PFloat) (card_num : String) :
    ProcResult :=
  { ok := true
    records := [{ customer_id := cid, amount := amount,
                  card_last4 := some (card_num.takeRight 4),
                  status := "completed" }] }

/-- `PaymentProcessor._process_medium_payment`: runs the small-payment insert on
a background thread and, when it succeeds, sends a confirmation email after a
delay.  The bounded join makes the caller return the insert result; the email
sent later by the background thread is recorded here as a triggered
notification. -/
def process_medium_payment (cid : String) (amount : PFloat) (card_num : String) :
    ProcResult :=
  let r := process_small_payment cid amount card_num
  if r.ok then { r with notifs := r.notifs ++ [.confirmationEmail cid amount] }
  else r

/-- `PaymentProcessor._process_large_payment`: rejects an authorization code
whose length is not 6 before touching storage; otherwise inserts one
`pending_review` row and notifies the fraud team. -/
def process_large_payment (cid : String) (amount : PFloat) (card_num : String)
    (auth_code : String) : ProcResult :=
  if auth_code.length ≠ 6 then
    { ok := false, msg := some "Invalid auth code" }
  else
    { ok := true
      records := [{ customer_id := cid, amount := amount,
                    card_last4 := some (card_num.takeRight 4),
                    auth_code := some auth_code,
                    status := "pending_review" }]
      notifs := [.fraudTeam cid amount] }

/-- `PaymentProcessor._process_bank_transfer`: inserts one `processing` row and
returns True. -/
def process_bank_transfer (cid : String) (amount : PFloat) (account_num : String)
    (routing_num : String) : ProcResult :=
  { ok := true
    records := [{ customer_id := cid, amount := amount,
                  account_last4 := some (account_num.takeRight 4),
                  routing := some routing_num,
                  status := "processing" }] }

/-- `PaymentProcessor._process_paypal`: inserts one `completed` row and returns
True. -/
def process_paypal (cid : String) (amount : PFloat) (email : String) :
    ProcResult :=
  { ok := true
    records := [{ customer_id := cid, amount := amount,
                  paypal_email := some email,
                  status := "completed" }] }

/-- `PaymentProcessor.process_payment`: the nested validation and dispatch
pipeline, branch for branch.  `path` records which tier or handler body the
request reached. -/
def process_payment (cid : String) (amount : PFloat) (method : String)
    (metadata : Metadata) : ProcResult :=
  if (PFloat.fin 0).lt amount then
    if method = "credit_card" then
      match metadata.card_number with
      | some card_num =>
        if card_num.length = 16 then
          if startsWithChar card_num '4' || startsWithChar card_num '5' then
            if amount.lt (.fin 100) then
              { process_small_payment cid amount card_num with path := some .small }
            else if amount.lt (.fin 1000) then
              { process_medium_payment cid amount card_num with path := some .medium }
            else
              match metadata.authorization_code with
              | some auth_code =>
                { process_large_payment cid amount card_num auth_code with
                    path := some .large }
              | none => { ok := false, path := some .large, msg := some "Missing auth code" }
          else { ok := false, msg := some "Unsupported card type" }
        else { ok := false, msg := some "Invalid card length" }
      | none => { ok := false, msg := some "No card number" }
    else if method = "bank_transfer" then
      match metadata.account_number with
      | some account_num =>
        match metadata.routing_number with
        | some routing_num =>
          { process_bank_transfer cid amount account_num routing_num with
              path := some .bank }
        | none => { ok := false, msg := some "No routing number" }
      | none => { ok := false, msg := some "No account number" }
    else if method = "paypal" then
      match metadata.email with
      | some em => { process_paypal cid amount em with path := some .paypal }
      | none => { ok := false, msg := some "No PayPal email" }
    else { ok := false, msg := some "Unknown payment method" }
  else { ok := false, msg := some "Invalid amount" }

/-!
Customer servlet embedding (`customer_servlet.py`).  The servlet keeps its
customers in a Python dictionary keyed by customer id; the dictionary is
modelled as an association list with in-place replacement on re-assignment.
The invoice table of `invoice_dao.py` is passed in as a list of rows
(`get_invoices_by_customer` issues a SELECT filtered by customer id; the
ORDER BY clause is irrelevant to the counts and sums computed here).
Timestamps (`created_date`) are not modelled; no claim depends on them.
-/

/-- One customer record as built by `create_customer` (minus the timestamp). -/
structure Customer where
  customer_id : String
  name : String
  email : String
  phone : String
  age : Int
  credit_limit : ℚ
  status : String
deriving DecidableEq

/-- The `self.customers` dictionary: association list keyed by customer id. -/
abbrev Store := List (String × Customer)

/-- Dictionary lookup `self.customers.get(customer_id)` /
`customer_id in self.customers`. -/
def lookupCustomer : Store → String → Option Customer
  | [], _ => none
  | (k, c) :: rest, cid => if k = cid then some c else lookupCustomer rest cid

/-- Dictionary assignment `self.customers[customer_id] = customer`: replaces
the entry in place when the key exists, appends otherwise. -/
def insertCustomer : Store → String → Customer → Store
  | [], cid, c => [(cid, c)]
  | (k, c0) :: rest, cid, c =>
    if k = cid then (k, c) :: rest else (k, c0) :: insertCustomer rest cid c

/-- One row of the `invoices` table, with the columns the servlet reads. -/
structure Invoice where
  invoice_id : String
  customer_id : String
  amount : ℚ
  status : String
deriving DecidableEq

/-- `InvoiceDAO.get_invoices_by_customer`: all invoice rows of the given
customer. -/
def get_invoices_by_customer (table : List Invoice) (cid : String) :
    List Invoice :=
  table.filter (fun inv => inv.customer_id = cid)

/-- `CustomerServlet.create_customer`: no validation at all; stores the record
with status `active` and returns True. -/
def create_customer (store : Store) (cid name email phone : String) (age : Int)
    (credit_limit : ℚ) : Bool × Store :=
  (true, insertCustomer store cid
    { customer_id := cid, name := name, email := email, phone := phone,
      age := age, credit_limit := credit_limit, status := "active" })

/-- `CustomerServlet.update_credit_limit`: updates only when the customer
exists and the new limit is strictly positive. -/
def update_credit_limit (store : Store) (cid : String) (new_limit : ℚ) :
    Bool × Store :=
  match lookupCustomer store cid with
  | none => (false, store)
  | some c =>
    if 0 < new_limit then
      (true, insertCustomer store cid { c with credit_limit := new_limit })
    else (false, store)

/-- The loop of `approve_credit_increase` counting invoices whose status is
`late`. -/
def late_count (invoices : List Invoice) : Nat :=
  (invoices.filter (fun inv => inv.status = "late")).length

/-- `CustomerServlet.approve_credit_increase`: the rule chain, check for check,
returning the Python boolean together with the updated dictionary. -/
def approve_credit_increase (store : Store) (table : List Invoice)
    (cid : String) (requested_increase : ℚ) : Bool × Store :=
  match lookupCustomer store cid with
  | none => (false, store)
  | some customer =>
    let current_limit := customer.credit_limit
    let age := customer.age
    if age < 18 then (false, store)
    else if 5000 < requested_increase then (false, store)
    else if 10000 < current_limit + requested_increase then (false, store)
    else
      let invoices := get_invoices_by_customer table cid
      let late_payments := late_count invoices
      if 2 < late_payments then (false, store)
      else
        (true, insertCustomer store cid
          { customer with credit_limit := current_limit + requested_increase })

/-- The accumulation loop of `calculate_available_credit`: sums the amounts of
invoices whose status is neither `paid` nor `cancelled`. -/
def total_outstanding (invoices : List Invoice) : ℚ :=
  invoices.foldl
    (fun acc inv =>
      if inv.status ≠ "paid" ∧ inv.status ≠ "cancelled" then acc + inv.amount
      else acc)
    0

/-- `CustomerServlet.calculate_available_credit`: 0 for an unknown customer,
otherwise the credit limit minus the outstanding total. -/
def calculate_available_credit (store : Store) (table : List Invoice)
    (cid : String) : ℚ :=
  match lookupCustomer store cid with
  | none => 0
  | some customer =>
    customer.credit_limit - total_outstanding (get_invoices_by_customer table cid)

/-- The sum the specification prescribes for outstanding usage: amounts of the
invoices whose status is neither `paid` nor `cancelled`. -/
def outstanding_spec (invoices : List Invoice) : ℚ :=
  ((invoices.filter
      (fun inv => inv.status ≠ "paid" ∧ inv.status ≠ "cancelled")).map
    (fun inv => inv.amount)).sum

/-- One call to a credit-limit-affecting servlet operation, with its
arguments. -/
inductive Op where
  | create (cid name email phone : String) (age : Int) (credit_limit : ℚ)
  | set_limit (cid : String) (new_limit : ℚ)
  | approve (cid : String) (requested_increase : ℚ)
deriving DecidableEq

/-- The store after applying one operation (the returned boolean is
discarded). -/
def apply_op (table : List Invoice) (store : Store) : Op → Store
  | .create cid name email phone age credit_limit =>
    (create_customer store cid name email phone age credit_limit).2
  | .set_limit cid new_limit => (update_credit_limit store cid new_limit).2
  | .approve cid requested_increase =>
    (approve_credit_increase store table cid requested_increase).2

/-- The store after applying a sequence of operations in order. -/
def run_ops (table : List Invoice) (store : Store) : List Op → Store
  | [] => store
  | op :: rest => run_ops table (apply_op table store op) rest

/-- The invariant claimed for the store: every stored customer has a
non-negative credit limit. -/
def limits_nonneg (store : Store) : Prop :=
  ∀ p ∈ store, 0 ≤ (p.2).credit_limit

/-- An operation whose arguments cannot push a limit negative: a creation with
a non-negative initial limit, any limit update, or an approval of a
non-negative increase. -/
def op_nonneg : Op → Prop
  | .create _ _ _ _ _ credit_limit => 0 ≤ credit_limit
  | .set_limit _ _ => True
  | .approve _ requested_increase => 0 ≤ requested_increase

/-!
Race model for `approve_credit_increase`.  The Python method reads
`customer["credit_limit"]` into `current_limit`, evaluates the four rules on
that read value, and only then assigns
`customer["credit_limit"] = current_limit + requested_increase`.  Nothing
serializes two calls on the same customer, so between the read of one call and
its write the other call can perform its own read.  The read-and-check phase
and the write phase are therefore split below, and `approve_race` runs the
interleaving read1-read2-write1-write2 in which each call checks against the
store as it was before either write.  `approve_check_write_eq` proves that,
run without interleaving, the two phases compose to exactly
`approve_credit_increase`.
-/

/-- The read-and-check phase of `approve_credit_increase`: returns the credit
limit it read when every rule passes, `none` when some rule rejects. -/
def approve_check (store : Store) (table : List Invoice) (cid : String)
    (requested_increase : ℚ) : Option ℚ :=
  match lookupCustomer store cid with
  | none => none
  | some customer =>
    let current_limit := customer.credit_limit
    let age := customer.age
    if age < 18 then none
    else if 5000 < requested_increase then none
    else if 10000 < current_limit + requested_increase then none
    else if 2 < late_count (get_invoices_by_customer table cid) then none
    else some current_limit

/-- The write phase of `approve_credit_increase`: stores the new limit computed
from the previously read value. -/
def approve_write (store : Store) (cid : String) (new_limit : ℚ) : Store :=
  match lookupCustomer store cid with
  | none => store
  | some customer =>
    insertCustomer store cid { customer with credit_limit := new_limit }

/-- Two concurrent `approve_credit_increase` calls on the same customer under
the interleaving read1-read2-write1-write2: both checks run against the
original store, then both writes are applied in order.  Returns the two
booleans the calls return and the final store. -/
def approve_race (store : Store) (table : List Invoice) (cid : String)
    (inc1 inc2 : ℚ) : Bool × Bool × Store :=
  match approve_check store table cid inc1, approve_check store table cid inc2 with
  | some cur1, some cur2 =>
    let s1 := approve_write store cid (cur1 + inc1)
    let s2 := approve_write s1 cid (cur2 + inc2)
    (true, true, s2)
  | some cur1, none => (true, false, approve_write store cid (cur1 + inc1))
  | none, some cur2 => (false, true, approve_write store cid (cur2 + inc2))
  | none, none => (false, false, store)

/-- Concrete eligible customer used as a witness input for the approval
rules. -/
def custC1 : Customer :=
  { customer_id := "c1", name := "Ann", email := "a@x", phone := "1",
    age := 30, credit_limit := 2000, status := "active" }

/-- Concrete customer with limit 1000 used in the available-credit
witnesses. -/
def custW : Customer :=
  { customer_id := "c1", name := "Bea", email := "b@x", phone := "2",
    age := 40, credit_limit := 1000, status := "active" }

/-- Invoice table (400 pending, 200 paid, 100 late) used in the
available-credit witnesses. -/
def invW : List Invoice :=
  [{ invoice_id := "i1", customer_id := "c1", amount := 400, status := "pending" },
   { invoice_id := "i2", customer_id := "c1", amount := 200, status := "paid" },
   { invoice_id := "i3", customer_id := "c1", amount := 100, status := "late" }]

/-- Invoice table with an outstanding total above the witness customer
limit. -/
def invOver : List Invoice :=
  [{ invoice_id := "i1", customer_id := "c1", amount := 900, status := "pending" },
   { invoice_id := "i2", customer_id := "c1", amount := 300, status := "late" }]

/-- Concrete customer at limit 8000 used in the race scenario. -/
def cust8000 : Customer :=
  { customer_id := "c1", name := "Dee", email := "d@x", phone := "4",
    age := 30, credit_limit := 8000, status := "active" }

/-! Helper lemmas. -/

/-- Unfolding of the float comparison on two finite values. -/
theorem PFloat.lt_fin_fin (a b : ℚ) : (PFloat.fin a).lt (.fin b) = decide (a < b) := rfl

/-- Every dispatch either returns True or inserts no payment row. -/
theorem process_payment_ok_or_no_record (cid : String) (amt : PFloat)
    (method : String) (meta : Metadata) :
    (process_payment cid amt method meta).ok = true ∨
      (process_payment cid amt method meta).records = [] := by
  unfold process_payment process_small_payment process_medium_payment
    process_large_payment process_bank_transfer process_paypal
  repeat' split
  all_goals simp [process_small_payment]

/-- The accumulation loop computes the sum prescribed by the specification. -/
theorem total_outstanding_eq (invoices : List Invoice) :
    total_outstanding invoices = outstanding_spec invoices := by
  have aux : ∀ (l : List Invoice) (acc : ℚ),
      l.foldl
        (fun acc inv =>
          if inv.status ≠ "paid" ∧ inv.status ≠ "cancelled" then acc + inv.amount
          else acc)
        acc = acc + outstanding_spec l := by
    intro l
    induction l with
    | nil => intro acc; simp [outstanding_spec]
    | cons hd tl ih =>
      intro acc
      by_cases h : hd.status ≠ "paid" ∧ hd.status ≠ "cancelled"
      · simp [List.foldl_cons, ih, outstanding_spec, List.filter_cons, h]
        ring
      · simp [List.foldl_cons, ih, outstanding_spec, List.filter_cons, h]
  simpa using aux invoices 0

/-- A successful lookup returns an entry of the store. -/
theorem lookupCustomer_mem {store : Store} {cid : String} {c : Customer}
    (h : lookupCustomer store cid = some c) : (cid, c) ∈ store := by
  induction store with
  | nil => simp [lookupCustomer] at h
  | cons hd tl ih =>
    obtain ⟨k, c0⟩ := hd
    rw [lookupCustomer] at h
    by_cases hk : k = cid
    · rw [if_pos hk] at h
      injection h with h
      subst hk
      subst h
      exact List.mem_cons_self _ _
    · rw [if_neg hk] at h
      exact List.mem_cons_of_mem _ (ih h)

/-- Inserting a customer with a non-negative limit preserves the invariant. -/
theorem limits_nonneg_insert {store : Store} {cid : String} {c : Customer}
    (hs : limits_nonneg store) (hc : 0 ≤ c.credit_limit) :
    limits_nonneg (insertCustomer store cid c) := by
  induction store with
  | nil =>
    intro p hp
    rw [insertCustomer] at hp
    rcases List.mem_singleton.mp hp with rfl
    exact hc
  | cons hd tl ih =>
    obtain ⟨k, c0⟩ := hd
    have hs_hd : 0 ≤ c0.credit_limit := hs (k, c0) (List.mem_cons_self _ _)
    have hs_tl : limits_nonneg tl := fun p hp => hs p (List.mem_cons_of_mem _ hp)
    rw [insertCustomer]
    by_cases hk : k = cid
    · rw [if_pos hk]
      intro p hp
      rcases List.mem_cons.mp hp with rfl | hp
      · exact hc
      · exact hs_tl p hp
    · rw [if_neg hk]
      intro p hp
      rcases List.mem_cons.mp hp with rfl | hp
      · exact hs_hd
      · exact ih hs_tl p hp

/-- Each operation with non-negative arguments preserves the invariant. -/
theorem apply_op_nonneg (table : List Invoice) (store : Store) (op : Op)
    (hs : limits_nonneg store) (hop : op_nonneg op) :
    limits_nonneg (apply_op table store op) := by
  cases op with
  | create cid name email phone age credit_limit =>
    exact limits_nonneg_insert hs hop
  | set_limit cid new_limit =>
    cases hc : lookupCustomer store cid with
    | none => simpa [apply_op, update_credit_limit, hc] using hs
    | some c =>
      by_cases hpos : (0:ℚ) < new_limit
      · simp only [apply_op, update_credit_limit, hc, if_pos hpos]
        exact limits_nonneg_insert hs (le_of_lt hpos)
      · simpa [apply_op, update_credit_limit, hc, hpos] using hs
  | approve cid requested_increase =>
    cases hc : lookupCustomer store cid with
    | none => simpa [apply_op, approve_credit_increase, hc] using hs
    | some c =>
      have hcl : 0 ≤ c.credit_limit := hs (cid, c) (lookupCustomer_mem hc)
      by_cases h18 : c.age < 18
      · simpa [apply_op, approve_credit_increase, hc, h18] using hs
      · by_cases h5000 : (5000:ℚ) < requested_increase
        · simpa [apply_op, approve_credit_increase, hc, h18, h5000] using hs
        · by_cases h10000 : (10000:ℚ) < c.credit_limit + requested_increase
          · simpa [apply_op, approve_credit_increase, hc, h18, h5000, h10000]
              using hs
          · by_cases hlate :
                2 < late_count (get_invoices_by_customer table cid)
            · simpa [apply_op, approve_credit_increase, hc, h18, h5000, h10000,
                hlate] using hs
            · simp only [apply_op, approve_credit_increase, hc, if_neg h18,
                if_neg h5000, if_neg h10000, if_neg hlate]
              exact limits_nonneg_insert hs
                (show (0:ℚ) ≤ c.credit_limit + requested_increase by
                  simp [op_nonneg] at hop
                  linarith)

/-- Sequentially, the split read-check and write phases compose to exactly
`approve_credit_increase`, grounding the race model in the embedded method. -/
theorem approve_check_write_eq (store : Store) (table : List Invoice)
    (cid : String) (inc : ℚ) :
    approve_credit_increase store table cid inc =
      match approve_check store table cid inc with
      | some cur => (true, approve_write store cid (cur + inc))
      | none => (false, store) := by
  cases hc : lookupCustomer store cid with
  | none => simp [approve_credit_increase, approve_check, hc]
  | some c =>
    by_cases h18 : c.age < 18
    · simp [approve_credit_increase, approve_check, hc, h18]
    · by_cases h5000 : (5000:ℚ) < inc
      · simp [approve_credit_increase, approve_check, hc, h18, h5000]
      · by_cases h10000 : (10000:ℚ) < c.credit_limit + inc
        · simp [approve_credit_increase, approve_check, hc, h18, h5000, h10000]
        · by_cases hlate : 2 < late_count (get_invoices_by_customer table cid)
          · simp [approve_credit_increase, approve_check, hc, h18, h5000,
              h10000, hlate]
          · simp [approve_credit_increase, approve_check, approve_write, hc,
              h18, h5000, h10000, hlate]

/-! Claim theorems. -/

/-- C1: `approve_credit_increase` rejects an unknown customer; otherwise it
evaluates age, single-increase ceiling, total ceiling and late-payment count in
that order, short-circuiting on the first failure and leaving the store
unchanged; when every rule passes it returns True and replaces only that
customer, whose credit limit becomes exactly the old limit plus the requested
increase. -/
theorem C1_approve_rules (store : Store) (table : List Invoice) (cid : String)
    (inc : ℚ) :
    (lookupCustomer store cid = none →
      approve_credit_increase store table cid inc = (false, store)) ∧
    ∀ c, lookupCustomer store cid = some c →
      ((c.age < 18 →
        approve_credit_increase store table cid inc = (false, store)) ∧
       (18 ≤ c.age → 5000 < inc →
        approve_credit_increase store table cid inc = (false, store)) ∧
       (18 ≤ c.age → inc ≤ 5000 → 10000 < c.credit_limit + inc →
        approve_credit_increase store table cid inc = (false, store)) ∧
       (18 ≤ c.age → inc ≤ 5000 → c.credit_limit + inc ≤ 10000 →
        2 < late_count (get_invoices_by_customer table cid) →
        approve_credit_increase store table cid inc = (false, store)) ∧
       (18 ≤ c.age → inc ≤ 5000 → c.credit_limit + inc ≤ 10000 →
        late_count (get_invoices_by_customer table cid) ≤ 2 →
        approve_credit_increase store table cid inc =
          (true, insertCustomer store cid
            { c with credit_limit := c.credit_limit + inc }))) := by
  constructor
  · intro h
    simp [approve_credit_increase, h]
  · intro c hc
    refine ⟨?_, ?_, ?_, ?_, ?_⟩
    · intro h18
      simp [approve_credit_increase, hc, h18]
    · intro h18 h5000
      simp [approve_credit_increase, hc, not_lt.mpr h18, h5000]
    · intro h18 h5000 h10000
      simp [approve_credit_increase, hc, not_lt.mpr h18, not_lt.mpr h5000, h10000]
    · intro h18 h5000 h10000 hlate
      simp [approve_credit_increase, hc, not_lt.mpr h18, not_lt.mpr h5000,
        not_lt.mpr h10000, hlate]
    · intro h18 h5000 h10000 hlate
      simp [approve_credit_increase, hc, not_lt.mpr h18, not_lt.mpr h5000,
        not_lt.mpr h10000, not_lt.mpr hlate]

/-- C1 witness: an eligible customer with limit 2000 requesting 500 is
approved and ends with limit exactly 2500. -/
theorem C1_witness :
    (approve_credit_increase [("c1", custC1)] [] "c1" 500).1 = true ∧
    lookupCustomer (approve_credit_increase [("c1", custC1)] [] "c1" 500).2 "c1" =
      some { custC1 with credit_limit := 2500 } := by
  have h := ((C1_approve_rules [("c1", custC1)] [] "c1" 500).2 custC1 rfl).2.2.2.2
    (by norm_num [custC1]) (by norm_num) (by norm_num [custC1])
    (by simp [late_count, get_invoices_by_customer])
  rw [h]
  constructor
  · rfl
  · simp [insertCustomer, lookupCustomer, custC1]
    norm_num

/-- C2: a card payment of at least 1000 that passes card validation is rejected
with no payment row when the authorization code is absent or not 6 characters
long; with a 6-character code exactly one `pending_review` row is inserted and
exactly one fraud-team notification is triggered. -/
theorem C2_large_card_payment (cid : String) (q : ℚ) (meta : Metadata)
    (card : String) (hq : 1000 ≤ q) (hcard : meta.card_number = some card)
    (hlen : card.length = 16)
    (hnet : (startsWithChar card '4' || startsWithChar card '5') = true) :
    (meta.authorization_code = none →
      process_payment cid (.fin q) "credit_card" meta =
        { ok := false, path := some .large, msg := some "Missing auth code" }) ∧
    (∀ auth, meta.authorization_code = some auth → auth.length ≠ 6 →
      process_payment cid (.fin q) "credit_card" meta =
        { ok := false, path := some .large, msg := some "Invalid auth code" }) ∧
    (∀ auth, meta.authorization_code = some auth → auth.length = 6 →
      process_payment cid (.fin q) "credit_card" meta =
        { ok := true
          records := [{ customer_id := cid, amount := .fin q,
                        card_last4 := some (card.takeRight 4),
                        auth_code := some auth, status := "pending_review" }]
          notifs := [.fraudTeam cid (.fin q)]
          path := some .large }) := by
  have h0 : (0:ℚ) < q := by linarith
  have h100 : ¬ q < 100 := by linarith
  have h1000 : ¬ q < 1000 := by linarith
  refine ⟨?_, ?_, ?_⟩
  · intro hauth
    simp [process_payment, hcard, hauth, PFloat.lt_fin_fin, h0, h100, h1000, hlen, hnet]
  · intro auth hauth hlen6
    simp [process_payment, process_large_payment, hcard, hauth, PFloat.lt_fin_fin,
      h0, h100, h1000, hlen, hnet, hlen6]
  · intro auth hauth hlen6
    simp [process_payment, process_large_payment, hcard, hauth, PFloat.lt_fin_fin,
      h0, h100, h1000, hlen, hnet, hlen6]

/-- C2 witness: a 2500 card payment with a valid card and the 6-character code
123456 yields one `pending_review` row and one fraud notification. -/
theorem C2_witness :
    process_payment "c1" (.fin 2500) "credit_card"
        { card_number := some "4111111111111111", authorization_code := some "123456" } =
      { ok := true
        records := [{ customer_id := "c1", amount := .fin 2500,
                      card_last4 := some "1111",
                      auth_code := some "123456", status := "pending_review" }]
        notifs := [.fraudTeam "c1" (.fin 2500)]
        path := some .large } := by
  have h := (C2_large_card_payment "c1" 2500
    { card_number := some "4111111111111111", authorization_code := some "123456" }
    "4111111111111111" (by norm_num) rfl rfl rfl).2.2 "123456" rfl rfl
  exact h

/-- C3: for a validated card payment the tier intervals are half-open: a
positive amount below 100 is dispatched to the small tier, an amount in
[100, 1000) to the medium tier, and an amount of 1000 or more to the large
tier. -/
theorem C3_tier_selection (cid : String) (q : ℚ) (meta : Metadata) (card : String)
    (hcard : meta.card_number = some card) (hlen : card.length = 16)
    (hnet : (startsWithChar card '4' || startsWithChar card '5') = true)
    (h0 : 0 < q) :
    (q < 100 →
      (process_payment cid (.fin q) "credit_card" meta).path = some .small) ∧
    (100 ≤ q → q < 1000 →
      (process_payment cid (.fin q) "credit_card" meta).path = some .medium) ∧
    (1000 ≤ q →
      (process_payment cid (.fin q) "credit_card" meta).path = some .large) := by
  refine ⟨?_, ?_, ?_⟩
  · intro h100
    simp [process_payment, process_small_payment, hcard, PFloat.lt_fin_fin, h0, h100, hlen, hnet]
  · intro h100 h1000
    have h100n : ¬ q < 100 := by linarith
    simp [process_payment, process_medium_payment, process_small_payment, hcard,
      PFloat.lt_fin_fin, h0, h100n, h1000, hlen, hnet]
  · intro h1000
    have h100n : ¬ q < 100 := by linarith
    have h1000n : ¬ q < 1000 := by linarith
    cases hauth : meta.authorization_code with
    | none =>
      simp [process_payment, hcard, hauth, PFloat.lt_fin_fin, h0, h100n, h1000n, hlen, hnet]
    | some auth =>
      simp [process_payment, process_large_payment, hcard, hauth, PFloat.lt_fin_fin,
        h0, h100n, h1000n, hlen, hnet]

/-- C3 witness: amount exactly 100 routes to the medium tier and amount exactly
1000 routes to the large tier. -/
theorem C3_witness :
    (process_payment "c1" (.fin 100) "credit_card"
        { card_number := some "4111111111111111" }).path = some .medium ∧
    (process_payment "c1" (.fin 1000) "credit_card"
        { card_number := some "4111111111111111" }).path = some .large := by
  constructor
  · exact (C3_tier_selection "c1" 100 { card_number := some "4111111111111111" }
      "4111111111111111" rfl rfl rfl (by norm_num)).2.1 (by norm_num) (by norm_num)
  · exact (C3_tier_selection "c1" 1000 { card_number := some "4111111111111111" }
      "4111111111111111" rfl rfl rfl (by norm_num)).2.2 (by norm_num)

/-- C4 counterexample: a payment of positive infinity with a valid card and a
valid authorization code is not rejected as an invalid amount; it flows through
method-specific processing into the large tier and a payment row is created. -/
theorem C4_counterexample :
    process_payment "c1" PFloat.inf "credit_card"
        { card_number := some "4111111111111111", authorization_code := some "123456" } =
      { ok := true
        records := [{ customer_id := "c1", amount := PFloat.inf,
                      card_last4 := some "1111", auth_code := some "123456",
                      status := "pending_review" }]
        notifs := [.fraudTeam "c1" PFloat.inf]
        path := some .large } := rfl

/-- C4 amended: every amount that does not compare strictly greater than zero —
every non-positive finite amount, negative infinity, and NaN — is rejected as
an invalid amount before any method-specific processing, with no payment row
created; positive infinity, however, passes the amount check. -/
theorem C4_amended_rejection (cid method : String) (meta : Metadata) (amt : PFloat)
    (h : amt = PFloat.nan ∨ amt = PFloat.ninf ∨ ∃ q, amt = PFloat.fin q ∧ q ≤ 0) :
    process_payment cid amt method meta =
      { ok := false, msg := some "Invalid amount" } := by
  have hlt : (PFloat.fin 0).lt amt = false := by
    rcases h with h | h | ⟨q, rfl, hq⟩
    · subst h; rfl
    · subst h; rfl
    · simp [PFloat.lt]; linarith
  simp [process_payment, hlt]

/-- C4 amended witness: a NaN amount is rejected as an invalid amount with no
payment row. -/
theorem C4_amended_witness :
    process_payment "c1" PFloat.nan "credit_card" {} =
      { ok := false, msg := some "Invalid amount" } :=
  C4_amended_rejection "c1" "credit_card" {} PFloat.nan (Or.inl rfl)

/-- C5 counterexample: a 16-character card number that starts with 4 but is not
composed only of digits is accepted, and a payment row is created. -/
theorem C5_counterexample :
    process_payment "c1" (.fin 50) "credit_card"
        { card_number := some "4abcabcabcabcabc" } =
      { ok := true
        records := [{ customer_id := "c1", amount := .fin 50,
                      card_last4 := some "cabc", status := "completed" }]
        path := some .small } := rfl

/-- C5 amended: a card number that is missing, not 16 characters long, or whose
first character is neither 4 nor 5 is rejected with no payment row; the
digits-only requirement is not checked. -/
theorem C5_amended_card_validation (cid : String) (q : ℚ) (meta : Metadata)
    (h0 : 0 < q) :
    (meta.card_number = none →
      process_payment cid (.fin q) "credit_card" meta =
        { ok := false, msg := some "No card number" }) ∧
    (∀ card, meta.card_number = some card → card.length ≠ 16 →
      process_payment cid (.fin q) "credit_card" meta =
        { ok := false, msg := some "Invalid card length" }) ∧
    (∀ card, meta.card_number = some card → card.length = 16 →
      (startsWithChar card '4' || startsWithChar card '5') = false →
      process_payment cid (.fin q) "credit_card" meta =
        { ok := false, msg := some "Unsupported card type" }) := by
  refine ⟨?_, ?_, ?_⟩
  · intro hcard
    simp [process_payment, hcard, PFloat.lt_fin_fin, h0]
  · intro card hcard hlen
    simp [process_payment, hcard, PFloat.lt_fin_fin, h0, hlen]
  · intro card hcard hlen hnet
    simp [process_payment, hcard, PFloat.lt_fin_fin, h0, hlen, hnet]

/-- C5 amended witness: a 16-digit card number with lead digit 1 is rejected as
an unsupported card type with no payment row. -/
theorem C5_witness :
    process_payment "c1" (.fin 50) "credit_card" { card_number := some "1111111111111111" } =
      { ok := false, msg := some "Unsupported card type" } :=
  (C5_amended_card_validation "c1" 50 { card_number := some "1111111111111111" }
    (by norm_num)).2.2 "1111111111111111" rfl rfl rfl

/-- C6: every `process_payment` call that returns False inserts no payment row,
so a validation failure leaves the store unchanged. -/
theorem C6_validation_failure_no_write (cid : String) (amt : PFloat)
    (method : String) (meta : Metadata)
    (h : (process_payment cid amt method meta).ok = false) :
    (process_payment cid amt method meta).records = [] := by
  rcases process_payment_ok_or_no_record cid amt method meta with h1 | h1
  · rw [h] at h1; cases h1
  · exact h1

/-- C6 witness: the unknown method `wallet` is rejected with no payment row. -/
theorem C6_witness :
    (process_payment "c1" (.fin 50) "wallet" {}).records = [] :=
  C6_validation_failure_no_write "c1" (.fin 50) "wallet" {} rfl

/-- C7: `calculate_available_credit` returns 0 for an unknown customer without
erroring, and otherwise returns the credit limit minus the sum of amounts of
that customer's invoices whose status is neither `paid` nor `cancelled`. -/
theorem C7_available_credit (store : Store) (table : List Invoice)
    (cid : String) :
    (lookupCustomer store cid = none →
      calculate_available_credit store table cid = 0) ∧
    (∀ c, lookupCustomer store cid = some c →
      calculate_available_credit store table cid =
        c.credit_limit - outstanding_spec (get_invoices_by_customer table cid)) := by
  constructor
  · intro h
    simp [calculate_available_credit, h]
  · intro c hc
    simp [calculate_available_credit, hc, total_outstanding_eq]

/-- C7 witness: limit 1000 with invoices 400 pending, 200 paid, 100 late
yields 500, and an unknown customer yields 0. -/
theorem C7_witness :
    calculate_available_credit [("c1", custW)] invW "c1" = 500 ∧
    calculate_available_credit [("c1", custW)] invW "zzz" = 0 := by
  constructor
  · have h := (C7_available_credit [("c1", custW)] invW "c1").2 custW rfl
    rw [h]
    simp [outstanding_spec, get_invoices_by_customer, invW, custW,
      List.filter_cons, List.filter_nil]
    norm_num
  · exact (C7_available_credit [("c1", custW)] invW "zzz").1 rfl

/-- C8 counterexample: `create_customer` performs no validation, so a single
create operation with initial credit limit -1 leaves a stored customer with a
negative credit limit. -/
theorem C8_counterexample :
    lookupCustomer (run_ops [] [] [Op.create "c1" "Cal" "c@x" "3" 30 (-1)]) "c1" =
      some { customer_id := "c1", name := "Cal", email := "c@x", phone := "3",
             age := 30, credit_limit := -1, status := "active" } ∧
    ((-1 : ℚ) < 0) := by
  constructor
  · rfl
  · norm_num

/-- C8 amended: when every create operation carries a non-negative initial
limit and every approval a non-negative requested increase, no sequence of
create, update-limit and approve operations leaves any stored credit limit
negative. -/
theorem C8_amended_nonneg_preserved (table : List Invoice) (ops : List Op)
    (store : Store) (hs : limits_nonneg store)
    (hops : ∀ op ∈ ops, op_nonneg op) :
    limits_nonneg (run_ops table store ops) := by
  induction ops generalizing store with
  | nil => exact hs
  | cons op rest ih =>
    rw [run_ops]
    exact ih (apply_op table store op)
      (apply_op_nonneg table store op hs (hops op (List.mem_cons_self _ _)))
      (fun o ho => hops o (List.mem_cons_of_mem _ ho))

/-- C8 amended witness: creating a customer with limit 100 and approving an
increase of 50 keeps all limits non-negative. -/
theorem C8_amended_witness :
    limits_nonneg (run_ops [] []
      [Op.create "c1" "Cal" "c@x" "3" 30 100, Op.approve "c1" 50]) := by
  apply C8_amended_nonneg_preserved
  · intro p hp
    cases hp
  · intro op hop
    rcases List.mem_cons.mp hop with rfl | hop
    · norm_num [op_nonneg]
    · rcases List.mem_cons.mp hop with rfl | hop
      · norm_num [op_nonneg]
      · cases hop

/-- C9: with customer limit 8000 an increase of 1500 is individually approved,
yet under the unsynchronized read-read-write-write interleaving two concurrent
1500 increases both return True — the claimed exactly-one-success outcome
fails, and the second stale write even loses one update, leaving the limit at
9500. -/
theorem C9_race_both_succeed :
    (approve_credit_increase [("c1", cust8000)] [] "c1" 1500).1 = true ∧
    (approve_race [("c1", cust8000)] [] "c1" 1500 1500).1 = true ∧
    (approve_race [("c1", cust8000)] [] "c1" 1500 1500).2.1 = true ∧
    lookupCustomer (approve_race [("c1", cust8000)] [] "c1" 1500 1500).2.2 "c1" =
      some { cust8000 with credit_limit := 9500 } := by
  have hch : approve_check [("c1", cust8000)] [] "c1" 1500 = some 8000 := by
    simp [approve_check, lookupCustomer, cust8000, late_count,
      get_invoices_by_customer]
    norm_num
  have hrace : approve_race [("c1", cust8000)] [] "c1" 1500 1500 =
      (true, true,
        approve_write (approve_write [("c1", cust8000)] "c1" (8000 + 1500))
          "c1" (8000 + 1500)) := by
    rw [approve_race, hch]
  have happ : (approve_credit_increase [("c1", cust8000)] [] "c1" 1500).1 = true := by
    rw [approve_check_write_eq, hch]
  refine ⟨happ, ?_, ?_, ?_⟩
  · rw [hrace]
  · rw [hrace]
  · rw [hrace]
    simp [approve_write, lookupCustomer, insertCustomer, cust8000]
    norm_num

/-- C10: `calculate_available_credit` applies no lower clamp: whenever the
outstanding total of an existing customer exceeds the credit limit, the result
is strictly negative. -/
theorem C10_negative_available_credit (store : Store) (table : List Invoice)
    (cid : String) (c : Customer) (hc : lookupCustomer store cid = some c)
    (hover : c.credit_limit <
      outstanding_spec (get_invoices_by_customer table cid)) :
    calculate_available_credit store table cid < 0 := by
  simp [calculate_available_credit, hc, total_outstanding_eq]
  linarith

/-- C10 witness: limit 1000 against outstanding invoices of 900 and 300 gives a
negative available credit. -/
theorem C10_witness :
    calculate_available_credit [("c1", custW)] invOver "c1" < 0 :=
  C10_negative_available_credit [("c1", custW)] invOver "c1" custW rfl
    (by simp [outstanding_spec, get_invoices_by_customer, invOver, custW,
        List.filter_cons, List.filter_nil]; norm_num)

end CodeHealth
